import Mathlib

/-!
# Verification of the StormBee charge controller core

Shallow embedding of `src/Stormbee_charge_controller.ino` (the charge-control
decision logic, the Greenway BMS frame decoder with its two-frame cell-block
reassembly, the MQTT command handlers, and the telemetry publish gate),
together with theorems settling the specification claims about them.

Modelling conventions:
* C `float` fields are modelled as `ℚ` (every decoded value is an integer
  number of milli-units divided by 1000, so rational arithmetic is exact;
  the sub-millivolt rounding of IEEE `float` is below every tolerance any
  claim mentions).
* A received BLE frame `(uint8_t* data, size_t len)` is modelled as a byte
  function `data : Nat → Nat` (each value < 256 in any real frame) plus an
  explicit `len : Nat`, mirroring the C signature.  Reads performed by the
  decoder are additionally collected as an index list (the read footprint),
  and stores into `bmsData.cellVolts` as a written-index list (the write
  footprint), so that in-bounds claims about the raw C arrays can be stated.
* Machine integers: `uint8_t`/`uint16_t` values are `Nat`; `int` / `int32_t`
  casts reduce modulo 2^32 with an explicit sign adjustment.
* Serial debug printing (`debugMode`) and LED updates are pure output and are
  omitted; the `debugMode` dump reads only indices `0..len-1`, all in bounds.
-/

/-- C cast `(int8_t)b` of a byte value. -/
def toInt8 (b : Nat) : Int :=
  if b % 256 < 128 then (b % 256 : Int) else (b % 256 : Int) - 256

/-- C cast `(int32_t)raw` of a `uint32_t` value. -/
def toInt32 (raw : Nat) : Int :=
  if raw % 2 ^ 32 < 2 ^ 31 then (raw % 2 ^ 32 : Int) else (raw % 2 ^ 32 : Int) - 2 ^ 32

/-- `get32BitLEValue<int32_t>`: 32-bit little-endian read at `index` from a
byte pointer, with the guard `if (index + 3 >= 20) return 0;` of the source.
The C call sites pass the shifted pointer `data + 5`; callers here pass the
correspondingly shifted byte function. -/
def get32BitLEValue (data : Nat → Nat) (index : Nat) : Int :=
  if index + 3 ≥ 20 then 0
  else
    toInt32 (data index ||| (data (index + 1) <<< 8) |||
      (data (index + 2) <<< 16) ||| (data (index + 3) <<< 24))

/-- The `BmsData` struct (battery snapshot).  `cellVolts` is the
`float cellVolts[32]` array, as a total map from index to value; the write
footprint returned by the decoder records which indices are stored to. -/
structure BmsData where
  totalVoltage : ℚ
  current : ℚ
  soc : Nat
  soh : Nat
  cycleCount : Nat
  remainingCapacity : ℚ
  fullCapacity : ℚ
  tempT1 : Int
  tempT2 : Int
  tempMOS : Int
  minVoltage : ℚ
  maxVoltage : ℚ
  minCellIndex : Nat
  maxCellIndex : Nat
  cellVolts : Nat → ℚ
  lastUpdateTime : Nat

/-- The C++ member defaults of `struct BmsData` (all zero). -/
def initialBmsData : BmsData :=
  { totalVoltage := 0, current := 0, soc := 0, soh := 0, cycleCount := 0
    remainingCapacity := 0, fullCapacity := 0
    tempT1 := 0, tempT2 := 0, tempMOS := 0
    minVoltage := 0, maxVoltage := 0, minCellIndex := 0, maxCellIndex := 0
    cellVolts := fun _ => 0, lastUpdateTime := 0 }

/-- Mutable decoder state: the snapshot plus the static reassembly
variables `main_packet_shift_byte`, `expect_suite_24`, `expect_suite_25`. -/
structure DecoderState where
  bms : BmsData
  main_packet_shift_byte : Nat
  expect_suite_24 : Bool
  expect_suite_25 : Bool

/-- Process start: statics and snapshot all zeroed. -/
def initialDecoderState : DecoderState :=
  { bms := initialBmsData, main_packet_shift_byte := 0
    expect_suite_24 := false, expect_suite_25 := false }

/-- The `for (size_t i = currentDataIndex; i < dataMaxIndex; i += 2)` loop of
`printDetailedCellTable`.  Returns the updated cell array together with the
list of cell indices written and the list of frame byte indices read
(`data[i]` and `data[i + 1]` are both read before the
`!isShiftedBlock && i + 1 >= dataMaxIndex` break, exactly as in the source). -/
def cellLoop (data : Nat → Nat) (dataMaxIndex cellEndNum : Nat) (isShiftedBlock : Bool)
    (i currentCell : Nat) (cells : Nat → ℚ) (ws rs : List Nat) :
    (Nat → ℚ) × List Nat × List Nat :=
  if i < dataMaxIndex then
    if currentCell > cellEndNum then (cells, ws, rs)
    else
      let lsb := data i
      let msb := data (i + 1)
      let val_mv := (msb <<< 8) ||| lsb
      if !isShiftedBlock ∧ i + 1 ≥ dataMaxIndex then (cells, ws, rs ++ [i, i + 1])
      else
        cellLoop data dataMaxIndex cellEndNum isShiftedBlock (i + 2) (currentCell + 1)
          (fun n => if n = currentCell - 1 then (val_mv : ℚ) / 1000 else cells n)
          (ws ++ [currentCell - 1]) (rs ++ [i, i + 1])
  else (cells, ws, rs)
termination_by dataMaxIndex - i

/-- `printDetailedCellTable`: decodes one run of 16-bit little-endian cell
values into `cellVolts`, handling the shifted first cell of a follow-up
packet.  Returns (cells, written cell indices, read byte indices). -/
def printDetailedCellTable (cellStartNum cellEndNum : Nat) (data : Nat → Nat)
    (startDataIndex dataMaxIndex : Nat) (shiftLSB : Nat) (isShiftedBlock : Bool)
    (cells : Nat → ℚ) : (Nat → ℚ) × List Nat × List Nat :=
  if isShiftedBlock then
    let msb := data 0
    let val_mv := (msb <<< 8) ||| shiftLSB
    cellLoop data dataMaxIndex cellEndNum isShiftedBlock (startDataIndex + 1) (cellStartNum + 1)
      (fun n => if n = cellStartNum - 1 then (val_mv : ℚ) / 1000 else cells n)
      [cellStartNum - 1] [0]
  else
    cellLoop data dataMaxIndex cellEndNum isShiftedBlock startDataIndex cellStartNum cells [] []

/-- The min/max scan at the end of `decodeGreenway`: a full pass over cells
0..27, ignoring entries ≤ 0.1 V, updating only `minCellIndex`/`maxCellIndex`
(the local `minV`/`maxV` accumulators are not stored back). -/
def minMaxScan (bms : BmsData) : BmsData :=
  let r := (List.range 28).foldl
    (fun (acc : ℚ × ℚ × Nat × Nat) (i : Nat) =>
      let v := bms.cellVolts i
      if v > 1 / 10 then
        let acc1 := if v < acc.1 then (v, acc.2.1, i, acc.2.2.2) else acc
        if v > acc1.2.1 then (acc1.1, v, acc1.2.2.1, i) else acc1
      else acc)
    (10, 0, bms.minCellIndex, bms.maxCellIndex)
  { bms with minCellIndex := r.2.2.1, maxCellIndex := r.2.2.2 }

/-- `decodeGreenway`: one BLE notification.  Returns the new decoder state,
the list of `cellVolts` indices written, and the list of frame byte indices
read (the `debugMode` raw dump, which reads `0..len-1`, is omitted). -/
def decodeGreenway (now : Nat) (st : DecoderState) (data : Nat → Nat) (len : Nat) :
    DecoderState × List Nat × List Nat :=
  if len < 6 then (st, [], [])
  else
    let regId := data 3
    let st := { st with bms := { st.bms with lastUpdateTime := now } }
    let step :=
      if regId = 0x09 ∧ 9 ≤ len then
        let vRaw := get32BitLEValue (fun i => data (5 + i)) 0
        ({ st with bms := { st.bms with totalVoltage := (vRaw : ℚ) / 1000 } },
          ([] : List Nat), [5, 6, 7, 8])
      else if regId = 0x0A ∧ 18 ≤ len then
        let iRaw := get32BitLEValue (fun i => data (5 + i)) 0
        let cap := data 17 ||| (data 18 <<< 8)
        ({ st with bms := { st.bms with
            current := (iRaw : ℚ) / 1000
            soc := data 9
            soh := data 13
            fullCapacity := (cap : ℚ) } },
          [], [5, 6, 7, 8, 9, 13, 17, 18])
      else if regId = 0x08 ∧ 9 ≤ len then
        ({ st with bms := { st.bms with
            tempT1 := toInt8 (data 5)
            tempT2 := toInt8 (data 7)
            tempMOS := toInt8 (data 9) } }, [], [5, 7, 9])
      else if regId = 0x17 ∧ 7 ≤ len then
        ({ st with bms := { st.bms with cycleCount := data 5 ||| (data 6 <<< 8) } },
          [], [5, 6])
      else if regId = 0x25 ∧ 20 ≤ len then
        let r := printDetailedCellTable 17 23 data 5 19 0 false st.bms.cellVolts
        ({ st with
            bms := { st.bms with cellVolts := r.1 }
            main_packet_shift_byte := data 19
            expect_suite_24 := false
            expect_suite_25 := true },
          r.2.1, r.2.2 ++ [19])
      else if regId = 0x24 ∧ 20 ≤ len then
        let r := printDetailedCellTable 1 7 data 5 19 0 false st.bms.cellVolts
        ({ st with
            bms := { st.bms with cellVolts := r.1 }
            main_packet_shift_byte := data 19
            expect_suite_24 := true
            expect_suite_25 := false },
          r.2.1, r.2.2 ++ [19])
      else if len = 18 then
        if st.expect_suite_25 then
          let r1 := printDetailedCellTable 24 24 data 0 18 st.main_packet_shift_byte true
            st.bms.cellVolts
          let r2 := printDetailedCellTable 25 28 data 1 9 0 false r1.1
          let maxV := data 13 ||| (data 14 <<< 8)
          let minV := data 15 ||| (data 16 <<< 8)
          ({ st with
              bms := { st.bms with
                cellVolts := r2.1
                maxVoltage := (maxV : ℚ) / 1000
                minVoltage := (minV : ℚ) / 1000 }
              expect_suite_25 := false },
            r1.2.1 ++ r2.2.1, r1.2.2 ++ r2.2.2 ++ [13, 14, 15, 16])
        else if st.expect_suite_24 then
          let r1 := printDetailedCellTable 8 8 data 0 18 st.main_packet_shift_byte true
            st.bms.cellVolts
          let r2 := printDetailedCellTable 9 16 data 1 17 0 false r1.1
          ({ st with
              bms := { st.bms with cellVolts := r2.1 }
              expect_suite_24 := false },
            r1.2.1 ++ r2.2.1, r1.2.2 ++ r2.2.2)
        else (st, [], [])
      else (st, [], [])
    ({ step.1 with bms := minMaxScan step.1.bms }, step.2.1, [3] ++ step.2.2)

/-- A whole received-frame sequence: each element is (arrival time, bytes,
length).  Returns the final decoder state and every cell index written. -/
def decodeSeq (st : DecoderState) : List (Nat × (Nat → Nat) × Nat) → DecoderState × List Nat
  | [] => (st, [])
  | f :: rest =>
    let r := decodeGreenway f.1 st f.2.1 f.2.2
    let r2 := decodeSeq r.1 rest
    (r2.1, r.2.1 ++ r2.2)

/-! ## Charge control -/

/-- The `desiredState` computation of `checkChargeControl` (the pure charge
decision): master switch, 100 % special case, ±1 % hysteresis, MQTT force-off
override applied last inside the master-on branch.  Being a function of its
six inputs, it is deterministic in them by construction. -/
def checkChargeControlDesired (soc : Nat) (chargeTargetPercent : Int)
    (chargeMasterSwitch modeMQTT mqttForceOff relayActive : Bool) : Bool :=
  if !chargeMasterSwitch then false
  else
    let desired :=
      if chargeTargetPercent = 100 then true
      else if (soc : Int) ≥ chargeTargetPercent + 1 then false
      else if (soc : Int) ≤ chargeTargetPercent - 1 then true
      else relayActive
    if modeMQTT && mqttForceOff then false else desired

/-- The control flags shared by the command handlers and `checkChargeControl`,
plus the `bmsData.soc` value the decision reads. -/
structure ControlState where
  chargeTargetPercent : Int
  chargeMasterSwitch : Bool
  modeMQTT : Bool
  mqttForceOff : Bool
  relayActive : Bool
  soc : Nat
deriving DecidableEq

/-- Initializer values of the control globals (`chargeTargetPercent = 80`
before preferences are loaded; the preferences default is also 80). -/
def initialControlState : ControlState :=
  { chargeTargetPercent := 80, chargeMasterSwitch := true, modeMQTT := false
    mqttForceOff := false, relayActive := false, soc := 0 }

/-- `checkChargeControl` as a state transition: after the call, `relayActive`
equals the desired state (the source writes the relay pin and `relayActive`
only when they differ, which leaves the same final value). -/
def checkChargeControl (st : ControlState) : ControlState :=
  { st with relayActive := (checkChargeControlDesired st.soc st.chargeTargetPercent
      st.chargeMasterSwitch st.modeMQTT st.mqttForceOff st.relayActive) }

/-! ## Command ingress (MQTT callback and web set-limit handler) -/

def topic_set_limit : String := "stormbee/charge/set_limit"

def topic_set_power : String := "stormbee/charge/set_power"

/-- Skip leading whitespace, as `strtol` does. -/
def skipSpaces : List Char → List Char
  | [] => []
  | c :: cs =>
    if c = ' ' ∨ c = '\t' ∨ c = '\n' ∨ c = '\r' ∨ c = '\x0b' ∨ c = '\x0c'
    then skipSpaces cs else c :: cs

/-- Accumulate a decimal digit run, stopping at the first non-digit. -/
def parseDigits : List Char → Nat → Nat
  | [], acc => acc
  | c :: cs, acc => if c.isDigit then parseDigits cs (acc * 10 + (c.toNat - 48)) else acc

/-- Modelled from the library: Arduino `String::toInt` is `atol`, i.e. newlib
`strtol(s, NULL, 10)` — skip whitespace, optional sign, decimal digit run
(0 when no digits), saturating to the 32-bit `long` range on overflow. -/
def stringToInt (s : String) : Int :=
  let cs := skipSpaces s.data
  let signed : Int × List Char :=
    match cs with
    | '-' :: rest => (-1, rest)
    | '+' :: rest => (1, rest)
    | _ => (1, cs)
  let v := signed.1 * (parseDigits signed.2 0 : Int)
  max (-(2 ^ 31)) (min (2 ^ 31 - 1) v)

/-- `mqttCb`: assemble the payload into a string, then handle the two
subscribed topics exactly as the source does (validated set-limit; set-power
comparing the payload against the literal "OFF"); persistence of the accepted
limit (`preferences.putInt`) has no effect on the in-memory flags. -/
def mqttCb (topic : String) (payload : String) (st : ControlState) : ControlState :=
  let msg := payload
  let st1 :=
    if topic = topic_set_limit then
      let v := stringToInt msg
      if 50 ≤ v ∧ v ≤ 100 then checkChargeControl { st with chargeTargetPercent := v }
      else st
    else st
  if topic = topic_set_power then
    checkChargeControl { st1 with mqttForceOff := msg = "OFF" }
  else st1

/-- `handleSetLimit`: the web handler assigns `server.arg("val").toInt()` to
the limit with no validation, persists it, and re-runs charge control. -/
def handleSetLimit (valArg : String) (st : ControlState) : ControlState :=
  checkChargeControl { st with chargeTargetPercent := stringToInt valArg }

/-! ## Telemetry publication -/

/-- Connectivity read by `publishData`. -/
structure PublishEnv where
  useZigbee : Bool
  zigbeeConnected : Bool
  mqttConnected : Bool

/-- The values `publishData` serializes into the status JSON
(`v, i, soc, soh, cap, cyc, t1, t2, tm, rly, lim`). -/
structure StatusRecord where
  v : ℚ
  i : ℚ
  soc : Nat
  soh : Nat
  cap : ℚ
  cyc : Nat
  t1 : Int
  t2 : Int
  tm : Int
  rly : Bool
  lim : Int

/-- One outbound publication: the Zigbee serial lines, the two MQTT telemetry
topics, and the two Zigbee-status markers published to the status topic.
(The `snprintf`/string formatting is abstracted to the record of values; the
claims about publication concern when messages are emitted, not their text.) -/
inductive Publication where
  | zigbeeStatus (s : StatusRecord)
  | zigbeeCells (cells : List ℚ)
  | mqttZigbeeUp
  | mqttZigbeeDown
  | mqttStatus (s : StatusRecord)
  | mqttCells (cells : List ℚ)

/-- `publishData`: gated on `lastUpdateTime != 0`; routes to Zigbee or MQTT
exactly as the source branches on `useZigbee`/`zigbeeConnected`/connection
state.  It mutates no program state (it only reads and emits), so the model
returns only the emitted publications. -/
def publishData (bms : BmsData) (relayActive : Bool) (chargeTargetPercent : Int)
    (env : PublishEnv) : List Publication :=
  if bms.lastUpdateTime = 0 then []
  else
    let jsonStatus : StatusRecord :=
      { v := bms.totalVoltage, i := bms.current, soc := bms.soc, soh := bms.soh
        cap := bms.fullCapacity, cyc := bms.cycleCount
        t1 := bms.tempT1, t2 := bms.tempT2, tm := bms.tempMOS
        rly := relayActive, lim := chargeTargetPercent }
    let jsonCells : List ℚ := (List.range 28).map bms.cellVolts
    if env.useZigbee ∧ env.zigbeeConnected then
      [Publication.zigbeeStatus jsonStatus, Publication.zigbeeCells jsonCells] ++
        (if env.mqttConnected then [Publication.mqttZigbeeUp] else [])
    else
      if ¬env.useZigbee ∨ (env.useZigbee ∧ ¬env.zigbeeConnected) then
        if env.mqttConnected then
          (if env.useZigbee then [Publication.mqttZigbeeDown] else []) ++
            [Publication.mqttStatus jsonStatus, Publication.mqttCells jsonCells]
        else []
      else []

/-! ## Synthetic frames

Concrete and parametric frames used to exercise the decoder.  The encoders
lay out injected millivolt values `v` (indexed by `cellVolts` array index)
at exactly the byte offsets the decoder reads them from. -/

/-- Low byte of a 16-bit millivolt value. -/
def lsbOf (x : Nat) : Nat := x % 256

/-- High byte of a 16-bit millivolt value. -/
def msbOf (x : Nat) : Nat := x / 256

/-- Synthetic low-block header frame (register 0x24, 20 bytes): cells 1..7
(array indices 0..6) as little-endian pairs at bytes 5..18, and byte 19
carrying the low byte of cell 8 (array index 7). -/
def encodeLowHeader (v : Nat → Nat) : Nat → Nat := fun i =>
  if i = 3 then 0x24
  else if 5 ≤ i ∧ i ≤ 18 then
    (if (i - 5) % 2 = 0 then lsbOf (v ((i - 5) / 2)) else msbOf (v ((i - 5) / 2)))
  else if i = 19 then lsbOf (v 7)
  else 0

/-- Synthetic low-block continuation frame (18 bytes): byte 0 is the high
byte of cell 8 (index 7), bytes 1..16 are cells 9..16 (indices 8..15) as
little-endian pairs. -/
def encodeLowCont (v : Nat → Nat) : Nat → Nat := fun i =>
  if i = 0 then msbOf (v 7)
  else if 1 ≤ i ∧ i ≤ 16 then
    (if (i - 1) % 2 = 0 then lsbOf (v (8 + (i - 1) / 2)) else msbOf (v (8 + (i - 1) / 2)))
  else 0

/-- Synthetic high-block header frame (register 0x25, 20 bytes): cells 17..23
(array indices 16..22) as little-endian pairs at bytes 5..18, and byte 19
carrying the low byte of cell 24 (array index 23). -/
def encodeHighHeader (v : Nat → Nat) : Nat → Nat := fun i =>
  if i = 3 then 0x25
  else if 5 ≤ i ∧ i ≤ 18 then
    (if (i - 5) % 2 = 0 then lsbOf (v (16 + (i - 5) / 2)) else msbOf (v (16 + (i - 5) / 2)))
  else if i = 19 then lsbOf (v 23)
  else 0

/-- Synthetic high-block continuation frame (18 bytes): byte 0 is the high
byte of cell 24 (index 23), bytes 1..8 are cells 25..28 (indices 24..27) as
little-endian pairs; the min/max tail bytes 13..16 are left zero. -/
def encodeHighCont (v : Nat → Nat) : Nat → Nat := fun i =>
  if i = 0 then msbOf (v 23)
  else if 1 ≤ i ∧ i ≤ 8 then
    (if (i - 1) % 2 = 0 then lsbOf (v (24 + (i - 1) / 2)) else msbOf (v (24 + (i - 1) / 2)))
  else 0

/-- A 9-byte frame with register tag 0x08 (temperature) and zero payload. -/
def frame08 : Nat → Nat := fun i => if i = 3 then 0x08 else 0

/-- An 18-byte frame with register tag 0x0A (current/SOC/SOH/capacity) and
zero payload. -/
def frame0A : Nat → Nat := fun i => if i = 3 then 0x0A else 0

/-- A 6-byte frame with the unrecognized register tag 0x01. -/
def unknownTagFrame : Nat → Nat := fun i => if i = 3 then 0x01 else 0

/-- All-zero frame bytes (register tag 0x00). -/
def zeroFrame : Nat → Nat := fun _ => 0

/-! ## Helper lemmas -/

theorem lor_shiftLeft_eq_add (hi lo : Nat) (h : lo < 256) :
    hi <<< 8 ||| lo = 256 * hi + lo := by
  have h2 : lo < 2 ^ 8 := by simpa using h
  calc hi <<< 8 ||| lo = 2 ^ 8 * hi ||| lo := by rw [Nat.shiftLeft_eq, Nat.mul_comm]
    _ = 2 ^ 8 * hi + lo := (Nat.mul_add_lt_is_or h2 hi).symm
    _ = 256 * hi + lo := by norm_num

theorem split_reassemble (x : Nat) :
    (x / 256) <<< 8 ||| x % 256 = x := by
  rw [lor_shiftLeft_eq_add _ _ (Nat.mod_lt _ (by norm_num))]
  omega


theorem minMaxScan_cellVolts (b : BmsData) : (minMaxScan b).cellVolts = b.cellVolts := rfl

theorem cellLoop_step (data : Nat → Nat) (dmi ce : Nat) (sh : Bool) (i cur : Nat)
    (cells : Nat → ℚ) (ws rs : List Nat) (h1 : i < dmi) (h2 : ¬cur > ce)
    (h3 : ¬((!sh) = true ∧ i + 1 ≥ dmi)) :
    cellLoop data dmi ce sh i cur cells ws rs =
      cellLoop data dmi ce sh (i + 2) (cur + 1)
        (fun n => if n = cur - 1 then (((data (i + 1) <<< 8) ||| data i : Nat) : ℚ) / 1000
          else cells n)
        (ws ++ [cur - 1]) (rs ++ [i, i + 1]) := by
  rw [cellLoop, if_pos h1, if_neg h2, if_neg h3]

theorem cellLoop_stop_index (data : Nat → Nat) (dmi ce : Nat) (sh : Bool) (i cur : Nat)
    (cells : Nat → ℚ) (ws rs : List Nat) (h1 : ¬i < dmi) :
    cellLoop data dmi ce sh i cur cells ws rs = (cells, ws, rs) := by
  rw [cellLoop, if_neg h1]

theorem cellLoop_stop_cell (data : Nat → Nat) (dmi ce : Nat) (sh : Bool) (i cur : Nat)
    (cells : Nat → ℚ) (ws rs : List Nat) (h1 : i < dmi) (h2 : cur > ce) :
    cellLoop data dmi ce sh i cur cells ws rs = (cells, ws, rs) := by
  rw [cellLoop, if_pos h1, if_pos h2]

theorem cellLoop_stop_break (data : Nat → Nat) (dmi ce : Nat) (sh : Bool) (i cur : Nat)
    (cells : Nat → ℚ) (ws rs : List Nat) (h1 : i < dmi) (h2 : ¬cur > ce)
    (h3 : (!sh) = true ∧ i + 1 ≥ dmi) :
    cellLoop data dmi ce sh i cur cells ws rs = (cells, ws, rs ++ [i, i + 1]) := by
  rw [cellLoop, if_pos h1, if_neg h2, if_pos h3]

theorem printDetailedCellTable_eval_1_7 (data : Nat → Nat) (cells : Nat → ℚ) :
    printDetailedCellTable 1 7 data 5 19 0 false cells =
      (fun n =>
        if n = 6 then (((data 18 <<< 8) ||| data 17 : Nat) : ℚ) / 1000 else
        if n = 5 then (((data 16 <<< 8) ||| data 15 : Nat) : ℚ) / 1000 else
        if n = 4 then (((data 14 <<< 8) ||| data 13 : Nat) : ℚ) / 1000 else
        if n = 3 then (((data 12 <<< 8) ||| data 11 : Nat) : ℚ) / 1000 else
        if n = 2 then (((data 10 <<< 8) ||| data 9 : Nat) : ℚ) / 1000 else
        if n = 1 then (((data 8 <<< 8) ||| data 7 : Nat) : ℚ) / 1000 else
        if n = 0 then (((data 6 <<< 8) ||| data 5 : Nat) : ℚ) / 1000 else cells n,
        [0, 1, 2, 3, 4, 5, 6],
        [5, 6, 7, 8, 9, 10, 11, 12, 13, 14, 15, 16, 17, 18]) := by
  unfold printDetailedCellTable
  rw [if_neg (by simp)]
  rw [cellLoop_step _ _ _ _ _ _ _ _ _ (by norm_num) (by norm_num) (by norm_num)]
  rw [cellLoop_step _ _ _ _ _ _ _ _ _ (by norm_num) (by norm_num) (by norm_num)]
  rw [cellLoop_step _ _ _ _ _ _ _ _ _ (by norm_num) (by norm_num) (by norm_num)]
  rw [cellLoop_step _ _ _ _ _ _ _ _ _ (by norm_num) (by norm_num) (by norm_num)]
  rw [cellLoop_step _ _ _ _ _ _ _ _ _ (by norm_num) (by norm_num) (by norm_num)]
  rw [cellLoop_step _ _ _ _ _ _ _ _ _ (by norm_num) (by norm_num) (by norm_num)]
  rw [cellLoop_step _ _ _ _ _ _ _ _ _ (by norm_num) (by norm_num) (by norm_num)]
  rw [cellLoop_stop_index _ _ _ _ _ _ _ _ _ (by norm_num)]
  refine Prod.ext ?_ (Prod.ext ?_ ?_) <;> norm_num

theorem printDetailedCellTable_eval_17_23 (data : Nat → Nat) (cells : Nat → ℚ) :
    printDetailedCellTable 17 23 data 5 19 0 false cells =
      (fun n =>
        if n = 22 then (((data 18 <<< 8) ||| data 17 : Nat) : ℚ) / 1000 else
        if n = 21 then (((data 16 <<< 8) ||| data 15 : Nat) : ℚ) / 1000 else
        if n = 20 then (((data 14 <<< 8) ||| data 13 : Nat) : ℚ) / 1000 else
        if n = 19 then (((data 12 <<< 8) ||| data 11 : Nat) : ℚ) / 1000 else
        if n = 18 then (((data 10 <<< 8) ||| data 9 : Nat) : ℚ) / 1000 else
        if n = 17 then (((data 8 <<< 8) ||| data 7 : Nat) : ℚ) / 1000 else
        if n = 16 then (((data 6 <<< 8) ||| data 5 : Nat) : ℚ) / 1000 else cells n,
        [16, 17, 18, 19, 20, 21, 22],
        [5, 6, 7, 8, 9, 10, 11, 12, 13, 14, 15, 16, 17, 18]) := by
  unfold printDetailedCellTable
  rw [if_neg (by simp)]
  rw [cellLoop_step _ _ _ _ _ _ _ _ _ (by norm_num) (by norm_num) (by norm_num)]
  rw [cellLoop_step _ _ _ _ _ _ _ _ _ (by norm_num) (by norm_num) (by norm_num)]
  rw [cellLoop_step _ _ _ _ _ _ _ _ _ (by norm_num) (by norm_num) (by norm_num)]
  rw [cellLoop_step _ _ _ _ _ _ _ _ _ (by norm_num) (by norm_num) (by norm_num)]
  rw [cellLoop_step _ _ _ _ _ _ _ _ _ (by norm_num) (by norm_num) (by norm_num)]
  rw [cellLoop_step _ _ _ _ _ _ _ _ _ (by norm_num) (by norm_num) (by norm_num)]
  rw [cellLoop_step _ _ _ _ _ _ _ _ _ (by norm_num) (by norm_num) (by norm_num)]
  rw [cellLoop_stop_index _ _ _ _ _ _ _ _ _ (by norm_num)]
  refine Prod.ext ?_ (Prod.ext ?_ ?_) <;> norm_num

theorem printDetailedCellTable_eval_24_24 (data : Nat → Nat) (cells : Nat → ℚ)
    (shiftLSB : Nat) :
    printDetailedCellTable 24 24 data 0 18 shiftLSB true cells =
      (fun n => if n = 23 then (((data 0 <<< 8) ||| shiftLSB : Nat) : ℚ) / 1000 else cells n,
        [23], [0]) := by
  unfold printDetailedCellTable
  rw [if_pos rfl]
  rw [cellLoop_stop_cell _ _ _ _ _ _ _ _ _ (by norm_num) (by norm_num)]

theorem printDetailedCellTable_eval_25_28 (data : Nat → Nat) (cells : Nat → ℚ) :
    printDetailedCellTable 25 28 data 1 9 0 false cells =
      (fun n =>
        if n = 27 then (((data 8 <<< 8) ||| data 7 : Nat) : ℚ) / 1000 else
        if n = 26 then (((data 6 <<< 8) ||| data 5 : Nat) : ℚ) / 1000 else
        if n = 25 then (((data 4 <<< 8) ||| data 3 : Nat) : ℚ) / 1000 else
        if n = 24 then (((data 2 <<< 8) ||| data 1 : Nat) : ℚ) / 1000 else cells n,
        [24, 25, 26, 27], [1, 2, 3, 4, 5, 6, 7, 8]) := by
  unfold printDetailedCellTable
  rw [if_neg (by simp)]
  rw [cellLoop_step _ _ _ _ _ _ _ _ _ (by norm_num) (by norm_num) (by norm_num)]
  rw [cellLoop_step _ _ _ _ _ _ _ _ _ (by norm_num) (by norm_num) (by norm_num)]
  rw [cellLoop_step _ _ _ _ _ _ _ _ _ (by norm_num) (by norm_num) (by norm_num)]
  rw [cellLoop_step _ _ _ _ _ _ _ _ _ (by norm_num) (by norm_num) (by norm_num)]
  rw [cellLoop_stop_index _ _ _ _ _ _ _ _ _ (by norm_num)]
  refine Prod.ext ?_ (Prod.ext ?_ ?_) <;> norm_num

theorem printDetailedCellTable_eval_8_8 (data : Nat → Nat) (cells : Nat → ℚ)
    (shiftLSB : Nat) :
    printDetailedCellTable 8 8 data 0 18 shiftLSB true cells =
      (fun n => if n = 7 then (((data 0 <<< 8) ||| shiftLSB : Nat) : ℚ) / 1000 else cells n,
        [7], [0]) := by
  unfold printDetailedCellTable
  rw [if_pos rfl]
  rw [cellLoop_stop_cell _ _ _ _ _ _ _ _ _ (by norm_num) (by norm_num)]

theorem printDetailedCellTable_eval_9_16 (data : Nat → Nat) (cells : Nat → ℚ) :
    printDetailedCellTable 9 16 data 1 17 0 false cells =
      (fun n =>
        if n = 15 then (((data 16 <<< 8) ||| data 15 : Nat) : ℚ) / 1000 else
        if n = 14 then (((data 14 <<< 8) ||| data 13 : Nat) : ℚ) / 1000 else
        if n = 13 then (((data 12 <<< 8) ||| data 11 : Nat) : ℚ) / 1000 else
        if n = 12 then (((data 10 <<< 8) ||| data 9 : Nat) : ℚ) / 1000 else
        if n = 11 then (((data 8 <<< 8) ||| data 7 : Nat) : ℚ) / 1000 else
        if n = 10 then (((data 6 <<< 8) ||| data 5 : Nat) : ℚ) / 1000 else
        if n = 9 then (((data 4 <<< 8) ||| data 3 : Nat) : ℚ) / 1000 else
        if n = 8 then (((data 2 <<< 8) ||| data 1 : Nat) : ℚ) / 1000 else cells n,
        [8, 9, 10, 11, 12, 13, 14, 15],
        [1, 2, 3, 4, 5, 6, 7, 8, 9, 10, 11, 12, 13, 14, 15, 16]) := by
  unfold printDetailedCellTable
  rw [if_neg (by simp)]
  rw [cellLoop_step _ _ _ _ _ _ _ _ _ (by norm_num) (by norm_num) (by norm_num)]
  rw [cellLoop_step _ _ _ _ _ _ _ _ _ (by norm_num) (by norm_num) (by norm_num)]
  rw [cellLoop_step _ _ _ _ _ _ _ _ _ (by norm_num) (by norm_num) (by norm_num)]
  rw [cellLoop_step _ _ _ _ _ _ _ _ _ (by norm_num) (by norm_num) (by norm_num)]
  rw [cellLoop_step _ _ _ _ _ _ _ _ _ (by norm_num) (by norm_num) (by norm_num)]
  rw [cellLoop_step _ _ _ _ _ _ _ _ _ (by norm_num) (by norm_num) (by norm_num)]
  rw [cellLoop_step _ _ _ _ _ _ _ _ _ (by norm_num) (by norm_num) (by norm_num)]
  rw [cellLoop_step _ _ _ _ _ _ _ _ _ (by norm_num) (by norm_num) (by norm_num)]
  rw [cellLoop_stop_index _ _ _ _ _ _ _ _ _ (by norm_num)]
  refine Prod.ext ?_ (Prod.ext ?_ ?_) <;> norm_num

theorem decode_lowHeader_eval (t : Nat) (st : DecoderState) (v : Nat → Nat) :
    decodeGreenway t st (encodeLowHeader v) 20 =
      (⟨minMaxScan { st.bms with
          lastUpdateTime := t
          cellVolts := fun n =>
            if n = 6 then (v 6 : ℚ) / 1000 else
            if n = 5 then (v 5 : ℚ) / 1000 else
            if n = 4 then (v 4 : ℚ) / 1000 else
            if n = 3 then (v 3 : ℚ) / 1000 else
            if n = 2 then (v 2 : ℚ) / 1000 else
            if n = 1 then (v 1 : ℚ) / 1000 else
            if n = 0 then (v 0 : ℚ) / 1000 else st.bms.cellVolts n },
        lsbOf (v 7), true, false⟩,
        [0, 1, 2, 3, 4, 5, 6],
        [3, 5, 6, 7, 8, 9, 10, 11, 12, 13, 14, 15, 16, 17, 18, 19]) := by
  have e3 : encodeLowHeader v 3 = 36 := by norm_num [encodeLowHeader]
  simp only [decodeGreenway, e3]
  norm_num
  rw [printDetailedCellTable_eval_1_7]
  norm_num [encodeLowHeader, lsbOf, msbOf]
  simp only [split_reassemble]

theorem decode_lowCont_eval (t : Nat) (st : DecoderState) (v : Nat → Nat)
    (h24 : st.expect_suite_24 = true) (h25 : st.expect_suite_25 = false)
    (n9 : encodeLowCont v 3 ≠ 9) (nA : encodeLowCont v 3 ≠ 10)
    (n8 : encodeLowCont v 3 ≠ 8) (n17 : encodeLowCont v 3 ≠ 23) :
    decodeGreenway t st (encodeLowCont v) 18 =
      (⟨minMaxScan { st.bms with
          lastUpdateTime := t
          cellVolts := fun n =>
            if n = 15 then (v 15 : ℚ) / 1000 else
            if n = 14 then (v 14 : ℚ) / 1000 else
            if n = 13 then (v 13 : ℚ) / 1000 else
            if n = 12 then (v 12 : ℚ) / 1000 else
            if n = 11 then (v 11 : ℚ) / 1000 else
            if n = 10 then (v 10 : ℚ) / 1000 else
            if n = 9 then (v 9 : ℚ) / 1000 else
            if n = 8 then (v 8 : ℚ) / 1000 else
            if n = 7 then
              (((v 7 / 256) <<< 8 ||| st.main_packet_shift_byte : Nat) : ℚ) / 1000
            else st.bms.cellVolts n },
        st.main_packet_shift_byte, false, false⟩,
        [7, 8, 9, 10, 11, 12, 13, 14, 15],
        [3, 0, 1, 2, 3, 4, 5, 6, 7, 8, 9, 10, 11, 12, 13, 14, 15, 16]) := by
  simp only [decodeGreenway]
  rw [if_neg (by norm_num), if_neg (by simp [n9]), if_neg (by simp [nA]),
    if_neg (by simp [n8]), if_neg (by simp [n17]), if_neg (by norm_num),
    if_neg (by norm_num), if_pos trivial, h25, h24]
  rw [if_neg (by norm_num), if_pos rfl]
  rw [printDetailedCellTable_eval_8_8, printDetailedCellTable_eval_9_16]
  norm_num [encodeLowCont, lsbOf, msbOf]
  simp only [split_reassemble]

theorem decode_highHeader_eval (t : Nat) (st : DecoderState) (v : Nat → Nat) :
    decodeGreenway t st (encodeHighHeader v) 20 =
      (⟨minMaxScan { st.bms with
          lastUpdateTime := t
          cellVolts := fun n =>
            if n = 22 then (v 22 : ℚ) / 1000 else
            if n = 21 then (v 21 : ℚ) / 1000 else
            if n = 20 then (v 20 : ℚ) / 1000 else
            if n = 19 then (v 19 : ℚ) / 1000 else
            if n = 18 then (v 18 : ℚ) / 1000 else
            if n = 17 then (v 17 : ℚ) / 1000 else
            if n = 16 then (v 16 : ℚ) / 1000 else st.bms.cellVolts n },
        lsbOf (v 23), false, true⟩,
        [16, 17, 18, 19, 20, 21, 22],
        [3, 5, 6, 7, 8, 9, 10, 11, 12, 13, 14, 15, 16, 17, 18, 19]) := by
  have e3 : encodeHighHeader v 3 = 37 := by norm_num [encodeHighHeader]
  simp only [decodeGreenway, e3]
  norm_num
  rw [printDetailedCellTable_eval_17_23]
  norm_num [encodeHighHeader, lsbOf, msbOf]
  simp only [split_reassemble]

theorem decode_highCont_eval (t : Nat) (st : DecoderState) (v : Nat → Nat)
    (h25 : st.expect_suite_25 = true)
    (n9 : encodeHighCont v 3 ≠ 9) (nA : encodeHighCont v 3 ≠ 10)
    (n8 : encodeHighCont v 3 ≠ 8) (n17 : encodeHighCont v 3 ≠ 23) :
    decodeGreenway t st (encodeHighCont v) 18 =
      (⟨minMaxScan { st.bms with
          lastUpdateTime := t
          minVoltage := 0
          maxVoltage := 0
          cellVolts := fun n =>
            if n = 27 then (v 27 : ℚ) / 1000 else
            if n = 26 then (v 26 : ℚ) / 1000 else
            if n = 25 then (v 25 : ℚ) / 1000 else
            if n = 24 then (v 24 : ℚ) / 1000 else
            if n = 23 then
              (((v 23 / 256) <<< 8 ||| st.main_packet_shift_byte : Nat) : ℚ) / 1000
            else st.bms.cellVolts n },
        st.main_packet_shift_byte, st.expect_suite_24, false⟩,
        [23, 24, 25, 26, 27],
        [3, 0, 1, 2, 3, 4, 5, 6, 7, 8, 13, 14, 15, 16]) := by
  simp only [decodeGreenway]
  rw [if_neg (by norm_num), if_neg (by simp [n9]), if_neg (by simp [nA]),
    if_neg (by simp [n8]), if_neg (by simp [n17]), if_neg (by norm_num),
    if_neg (by norm_num), if_pos trivial, h25]
  rw [if_pos rfl]
  rw [printDetailedCellTable_eval_24_24, printDetailedCellTable_eval_25_28]
  norm_num [encodeHighCont, lsbOf, msbOf]
  simp only [split_reassemble]

/-! ## Claim theorems -/

/-- C1: the charge decision is OFF when the master switch is off; otherwise
ON when the limit is 100; otherwise OFF at `soc ≥ limit+1`, ON at
`soc ≤ limit-1`, and the prior relay state inside the dead band; and whenever
remote mode and force-off both hold the result is OFF (the override is
applied after the hysteresis step, so it can only turn the relay off).
Determinism in the six inputs is by construction: the decision is a pure
function of them. -/
theorem checkChargeControl_decision (soc : Nat) (limit : Int)
    (master mode foff relay : Bool) :
    (master = false →
      checkChargeControlDesired soc limit master mode foff relay = false) ∧
    (mode = true → foff = true →
      checkChargeControlDesired soc limit master mode foff relay = false) ∧
    (master = true → ¬(mode = true ∧ foff = true) → limit = 100 →
      checkChargeControlDesired soc limit master mode foff relay = true) ∧
    (master = true → ¬(mode = true ∧ foff = true) → limit ≠ 100 →
      (soc : Int) ≥ limit + 1 →
      checkChargeControlDesired soc limit master mode foff relay = false) ∧
    (master = true → ¬(mode = true ∧ foff = true) → limit ≠ 100 →
      (soc : Int) ≤ limit - 1 →
      checkChargeControlDesired soc limit master mode foff relay = true) ∧
    (master = true → ¬(mode = true ∧ foff = true) → limit ≠ 100 →
      limit - 1 < (soc : Int) → (soc : Int) < limit + 1 →
      checkChargeControlDesired soc limit master mode foff relay = relay) := by
  simp only [checkChargeControlDesired]
  cases master <;> cases mode <;> cases foff <;> split_ifs <;> simp_all <;> try omega

/-- Witness for C1, on the end-to-end examples of the spec: soc 82 with limit
85 charges (82 ≤ 84), and soc 86 with limit 85 stops (86 ≥ 86). -/
theorem checkChargeControl_decision_witness :
    checkChargeControlDesired 82 85 true false false true = true ∧
    checkChargeControlDesired 86 85 true false false false = false := by
  constructor
  · exact (checkChargeControl_decision 82 85 true false false true).2.2.2.2.1
      rfl (by simp) (by decide) (by norm_num)
  · exact (checkChargeControl_decision 86 85 true false false false).2.2.2.1
      rfl (by simp) (by decide) (by norm_num)

/-- C6: the remote set-limit command accepts exactly the payloads parsing to
an integer in [50,100]; accepted payloads set the limit to the parsed value
and re-run the charge decision, all other payloads (out of range, garbage,
and anything parsing to zero) leave the whole control state untouched. -/
theorem mqttCb_set_limit_validated (payload : String) (st : ControlState) :
    (50 ≤ stringToInt payload ∧ stringToInt payload ≤ 100 →
      mqttCb topic_set_limit payload st =
        checkChargeControl { st with chargeTargetPercent := stringToInt payload }) ∧
    (¬(50 ≤ stringToInt payload ∧ stringToInt payload ≤ 100) →
      mqttCb topic_set_limit payload st = st) := by
  have hne : (topic_set_limit = topic_set_power) = False := by
    simp [topic_set_limit, topic_set_power]
  constructor
  · intro h
    simp only [mqttCb, eq_self_iff_true, if_true, hne, if_false, h, and_self]
  · intro h
    simp only [mqttCb, eq_self_iff_true, if_true, hne, if_false, if_neg h]

/-- Witness for C6, on the examples given in the spec: payload "85" sets the limit
to 85 (re-deciding the relay), while "49", "101" and "abc" are no-ops. -/
theorem mqttCb_set_limit_validated_witness :
    mqttCb topic_set_limit "85" initialControlState =
      checkChargeControl { initialControlState with chargeTargetPercent := 85 } ∧
    mqttCb topic_set_limit "49" initialControlState = initialControlState ∧
    mqttCb topic_set_limit "101" initialControlState = initialControlState ∧
    mqttCb topic_set_limit "abc" initialControlState = initialControlState := by
  refine ⟨?_, ?_, ?_, ?_⟩
  · rw [(mqttCb_set_limit_validated "85" initialControlState).1 (by decide)]
    decide
  · exact (mqttCb_set_limit_validated "49" initialControlState).2 (by decide)
  · exact (mqttCb_set_limit_validated "101" initialControlState).2 (by decide)
  · exact (mqttCb_set_limit_validated "abc" initialControlState).2 (by decide)

/-- C7: the remote set-power command sets the force-off flag to whether the
payload is the literal "OFF" (true for "OFF", false for any other payload,
including "ON", the empty string and garbage), and re-runs the charge
decision synchronously in the same command handling. -/
theorem mqttCb_set_power_forceOff (payload : String) (st : ControlState) :
    mqttCb topic_set_power payload st =
      checkChargeControl { st with mqttForceOff := decide (payload = "OFF") } ∧
    (mqttCb topic_set_power payload st).mqttForceOff = decide (payload = "OFF") ∧
    (mqttCb topic_set_power payload st).relayActive =
      checkChargeControlDesired st.soc st.chargeTargetPercent st.chargeMasterSwitch
        st.modeMQTT (decide (payload = "OFF")) st.relayActive := by
  have hne : (topic_set_power = topic_set_limit) = False := by
    simp [topic_set_limit, topic_set_power]
  refine ⟨?_, ?_, ?_⟩ <;>
    simp only [mqttCb, hne, if_false, eq_self_iff_true, if_true] <;> rfl

/-- C5 counterexample: the local web set-limit handler performs no range
validation, so the request `/set_limit?val=49` drives `limitPercent` to 49,
below the claimed invariant range [50,100]. -/
theorem handleSetLimit_accepts_out_of_range :
    (handleSetLimit "49" initialControlState).chargeTargetPercent = 49 ∧
    ¬(50 ≤ (handleSetLimit "49" initialControlState).chargeTargetPercent) := by
  decide

/-- C5 amended: `limitPercent` starts at 80 (in range); the remote set_limit
command preserves membership in [50,100] for every topic and payload; but the
web set-limit handler assigns the parsed payload unvalidated, so it keeps the
limit in [50,100] only when the parsed value itself lies in [50,100] (true of
everything the web form offers, 70..100, but not of arbitrary requests). -/
theorem limitPercent_range_preservation (st : ControlState) (topic payload valArg : String) :
    (50 ≤ initialControlState.chargeTargetPercent ∧
      initialControlState.chargeTargetPercent ≤ 100) ∧
    (50 ≤ st.chargeTargetPercent → st.chargeTargetPercent ≤ 100 →
      50 ≤ (mqttCb topic payload st).chargeTargetPercent ∧
        (mqttCb topic payload st).chargeTargetPercent ≤ 100) ∧
    (50 ≤ stringToInt valArg → stringToInt valArg ≤ 100 →
      50 ≤ (handleSetLimit valArg st).chargeTargetPercent ∧
        (handleSetLimit valArg st).chargeTargetPercent ≤ 100) := by
  refine ⟨by decide, ?_, ?_⟩
  · intro h1 h2
    simp only [mqttCb, checkChargeControl]
    split_ifs <;> simp_all
  · intro h1 h2
    exact ⟨h1, h2⟩

/-- Witness for the amended C5: from the initial state, the rejected remote
payload "101" and the accepted web value "85" both leave the limit inside
[50,100]. -/
theorem limitPercent_range_preservation_witness :
    (50 ≤ (mqttCb topic_set_limit "101" initialControlState).chargeTargetPercent ∧
      (mqttCb topic_set_limit "101" initialControlState).chargeTargetPercent ≤ 100) ∧
    (50 ≤ (handleSetLimit "85" initialControlState).chargeTargetPercent ∧
      (handleSetLimit "85" initialControlState).chargeTargetPercent ≤ 100) :=
  ⟨(limitPercent_range_preservation initialControlState topic_set_limit "101" "85").2.1
      (by decide) (by decide),
    (limitPercent_range_preservation initialControlState topic_set_limit "101" "85").2.2
      (by decide) (by decide)⟩

/-- C9: telemetry publication is gated on snapshot validity: while
`lastUpdateTime == 0` the publish step emits nothing at all (on any topic or
transport, for any connectivity), and anything emitted implies the snapshot
was valid.  The publish step itself mutates no program state in the source
(it only reads the snapshot and emits), which the model reflects by
returning only the emitted messages. -/
theorem publishData_gated_on_validity (bms : BmsData) (relay : Bool) (lim : Int)
    (env : PublishEnv) :
    (bms.lastUpdateTime = 0 → publishData bms relay lim env = []) ∧
    (publishData bms relay lim env ≠ [] → bms.lastUpdateTime ≠ 0) := by
  constructor
  · intro h; simp [publishData, h]
  · intro h hz; exact h (by simp [publishData, hz])

/-- Witness for C9: the never-updated initial snapshot publishes nothing even
with MQTT connected. -/
theorem publishData_gated_on_validity_witness :
    publishData initialBmsData false 80
      { useZigbee := false, zigbeeConnected := false, mqttConnected := true } = [] :=
  (publishData_gated_on_validity initialBmsData false 80
    { useZigbee := false, zigbeeConnected := false, mqttConnected := true }).1 rfl

/-- C2 fails on the code: for a temperature-register (0x08) frame of exactly
the guarded minimum length 9 the decoder reads byte index 9 (`data[9]` for
`tempMOS`), and for a current/SOC frame (0x0A) of exactly length 18 it reads
byte index 18 (`data[18]`, high byte of the capacity) — in both cases one
byte past the end of the frame, although the claim promises every read index
is strictly below the frame length. -/
theorem decodeGreenway_reads_past_frame_end :
    ((9 : Nat) ∈ (decodeGreenway 1 initialDecoderState frame08 9).2.2 ∧ ¬(9 < 9)) ∧
    ((18 : Nat) ∈ (decodeGreenway 1 initialDecoderState frame0A 18).2.2 ∧ ¬(18 < 18)) := by
  decide

/-- C4 counterexample: a 6-byte frame with the unrecognized tag 0x01 does not
leave the snapshot unchanged — the decoder stamps `lastUpdateTime` with the
current time before dispatching on the tag, so a never-decoded snapshot
becomes "valid" (`lastUpdateAt != 0`) after pure transport noise. -/
theorem decode_unknown_tag_sets_lastUpdate :
    (decodeGreenway 5 initialDecoderState unknownTagFrame 6).1.bms.lastUpdateTime = 5 ∧
    unknownTagFrame 3 = 1 ∧
    ((1 : Nat) ∈ ([0x09, 0x0A, 0x08, 0x17, 0x25, 0x24] : List Nat) → False) ∧
    initialDecoderState.bms.lastUpdateTime = 0 ∧ ¬((5 : Nat) = 0) := by
  decide

/-- C4 amended: a frame whose tag is unrecognized and whose length is neither
18 nor below 6 leaves every snapshot field unchanged except `lastUpdateTime`,
which is set to the current time (so a never-decoded snapshot stops being
invalid); the min/max cell indices are recomputed by the closing scan over
the unchanged cell array; no cell is written, and only byte 3 is read.
Frames shorter than 6 bytes are complete no-ops. -/
theorem decode_unknown_tag_effect (now : Nat) (st : DecoderState) (data : Nat → Nat)
    (len : Nat) (h6 : 6 ≤ len) (hlen : len ≠ 18)
    (htag : ¬data 3 ∈ ([0x09, 0x0A, 0x08, 0x17, 0x25, 0x24] : List Nat)) :
    (decodeGreenway now st data len).1.bms.totalVoltage = st.bms.totalVoltage ∧
    (decodeGreenway now st data len).1.bms.current = st.bms.current ∧
    (decodeGreenway now st data len).1.bms.soc = st.bms.soc ∧
    (decodeGreenway now st data len).1.bms.soh = st.bms.soh ∧
    (decodeGreenway now st data len).1.bms.cycleCount = st.bms.cycleCount ∧
    (decodeGreenway now st data len).1.bms.remainingCapacity = st.bms.remainingCapacity ∧
    (decodeGreenway now st data len).1.bms.fullCapacity = st.bms.fullCapacity ∧
    (decodeGreenway now st data len).1.bms.tempT1 = st.bms.tempT1 ∧
    (decodeGreenway now st data len).1.bms.tempT2 = st.bms.tempT2 ∧
    (decodeGreenway now st data len).1.bms.tempMOS = st.bms.tempMOS ∧
    (decodeGreenway now st data len).1.bms.minVoltage = st.bms.minVoltage ∧
    (decodeGreenway now st data len).1.bms.maxVoltage = st.bms.maxVoltage ∧
    (∀ i, (decodeGreenway now st data len).1.bms.cellVolts i = st.bms.cellVolts i) ∧
    (decodeGreenway now st data len).1.bms.lastUpdateTime = now ∧
    (decodeGreenway now st data len).1.bms.minCellIndex = (minMaxScan st.bms).minCellIndex ∧
    (decodeGreenway now st data len).1.bms.maxCellIndex = (minMaxScan st.bms).maxCellIndex ∧
    (decodeGreenway now st data len).1.main_packet_shift_byte = st.main_packet_shift_byte ∧
    (decodeGreenway now st data len).1.expect_suite_24 = st.expect_suite_24 ∧
    (decodeGreenway now st data len).1.expect_suite_25 = st.expect_suite_25 ∧
    (decodeGreenway now st data len).2.1 = [] ∧
    (decodeGreenway now st data len).2.2 = [3] ∧
    (∀ st2 data2 now2 len2, len2 < 6 → decodeGreenway now2 st2 data2 len2 = (st2, [], [])) := by
  simp only [List.mem_cons, List.not_mem_nil, or_false, not_or] at htag
  obtain ⟨n9, nA, n8, n17, n25, n24⟩ := htag
  have hd : decodeGreenway now st data len =
      ({ st with bms := minMaxScan { st.bms with lastUpdateTime := now } }, [], [3]) := by
    simp only [decodeGreenway]
    rw [if_neg (by omega), if_neg (by simp [n9]), if_neg (by simp [nA]),
      if_neg (by simp [n8]), if_neg (by simp [n17]), if_neg (by simp [n25]),
      if_neg (by simp [n24]), if_neg hlen]
    rfl
  rw [hd]
  refine ⟨rfl, rfl, rfl, rfl, rfl, rfl, rfl, rfl, rfl, rfl, rfl, rfl, fun i => rfl, rfl,
    rfl, rfl, rfl, rfl, rfl, rfl, rfl, ?_⟩
  intro st2 data2 now2 len2 hl
  simp only [decodeGreenway]
  rw [if_pos hl]

/-- Witness for the amended C4: an unknown-tag 6-byte frame at time 7 stamps
the timestamp and changes nothing else of the initial snapshot. -/
theorem decode_unknown_tag_effect_witness :
    (decodeGreenway 7 initialDecoderState unknownTagFrame 6).1.bms.soc =
      initialDecoderState.bms.soc ∧
    (decodeGreenway 7 initialDecoderState unknownTagFrame 6).1.bms.cellVolts 0 =
      initialDecoderState.bms.cellVolts 0 ∧
    (decodeGreenway 7 initialDecoderState unknownTagFrame 6).1.bms.lastUpdateTime = 7 := by
  have h := decode_unknown_tag_effect 7 initialDecoderState unknownTagFrame 6
    (by norm_num) (by norm_num) (by decide)
  exact ⟨h.2.2.1, h.2.2.2.2.2.2.2.2.2.2.2.2.1 0, h.2.2.2.2.2.2.2.2.2.2.2.2.2.1⟩

/-- C8: an 18-byte frame arriving while no cell block is pending (both
expect flags clear) leaves the whole cell-voltage array unchanged and keeps
the pending state clear, whatever its bytes are. -/
theorem continuation_no_pending_noop (st : DecoderState) (data : Nat → Nat) (now : Nat)
    (h24 : st.expect_suite_24 = false) (h25 : st.expect_suite_25 = false) :
    (∀ i, (decodeGreenway now st data 18).1.bms.cellVolts i = st.bms.cellVolts i) ∧
    (decodeGreenway now st data 18).1.expect_suite_24 = false ∧
    (decodeGreenway now st data 18).1.expect_suite_25 = false ∧
    (decodeGreenway now st data 18).2.1 = [] := by
  simp only [decodeGreenway]
  rw [if_neg (by omega)]
  by_cases c9 : data 3 = 0x09 ∧ 9 ≤ 18
  · rw [if_pos c9]; exact ⟨fun i => rfl, h24, h25, rfl⟩
  · rw [if_neg c9]
    by_cases cA : data 3 = 0x0A ∧ 18 ≤ 18
    · rw [if_pos cA]; exact ⟨fun i => rfl, h24, h25, rfl⟩
    · rw [if_neg cA]
      by_cases c8 : data 3 = 0x08 ∧ 9 ≤ 18
      · rw [if_pos c8]; exact ⟨fun i => rfl, h24, h25, rfl⟩
      · rw [if_neg c8]
        by_cases c17 : data 3 = 0x17 ∧ 7 ≤ 18
        · rw [if_pos c17]; exact ⟨fun i => rfl, h24, h25, rfl⟩
        · rw [if_neg c17]
          rw [if_neg (by simp), if_neg (by simp), if_pos trivial, h25, h24]
          exact ⟨fun i => rfl, rfl, rfl, rfl⟩

/-- Witness for C8: from the initial (no block pending) state, an all-zero
18-byte frame touches no cell and leaves both expect flags clear. -/
theorem continuation_no_pending_noop_witness :
    (decodeGreenway 9 initialDecoderState zeroFrame 18).1.bms.cellVolts 13 =
      initialDecoderState.bms.cellVolts 13 ∧
    (decodeGreenway 9 initialDecoderState zeroFrame 18).1.expect_suite_24 = false ∧
    (decodeGreenway 9 initialDecoderState zeroFrame 18).1.expect_suite_25 = false := by
  have h := continuation_no_pending_noop initialDecoderState zeroFrame 9 rfl rfl
  exact ⟨h.1 13, h.2.1, h.2.2.1⟩

theorem cellLoop_writes_mem (data : Nat → Nat) (dmi ce : Nat) (sh : Bool) :
    ∀ (k i cur : Nat) (cells : Nat → ℚ) (ws rs : List Nat), dmi - i ≤ k → 1 ≤ cur →
      ∀ n ∈ (cellLoop data dmi ce sh i cur cells ws rs).2.1, n ∈ ws ∨ n + 1 ≤ ce := by
  intro k
  induction k with
  | zero =>
    intro i cur cells ws rs hk hcur n hn
    rw [cellLoop, if_neg (by omega)] at hn
    exact Or.inl hn
  | succ k ih =>
    intro i cur cells ws rs hk hcur n hn
    rw [cellLoop] at hn
    by_cases h1 : i < dmi
    · rw [if_pos h1] at hn
      by_cases h2 : cur > ce
      · rw [if_pos h2] at hn; exact Or.inl hn
      · rw [if_neg h2] at hn
        by_cases h3 : (!sh : Bool) ∧ i + 1 ≥ dmi
        · rw [if_pos h3] at hn; exact Or.inl hn
        · rw [if_neg h3] at hn
          rcases ih (i + 2) (cur + 1) _ _ _ (by omega) (by omega) n hn with h | h
          · rcases List.mem_append.mp h with h4 | h4
            · exact Or.inl h4
            · right
              have : n = cur - 1 := List.mem_singleton.mp h4
              omega
          · exact Or.inr h
    · rw [if_neg h1] at hn; exact Or.inl hn

theorem printDetailedCellTable_writes_mem (cs ce : Nat) (data : Nat → Nat)
    (sdi dmi shiftLSB : Nat) (sh : Bool) (cells : Nat → ℚ) (hcs : 1 ≤ cs) :
    ∀ n ∈ (printDetailedCellTable cs ce data sdi dmi shiftLSB sh cells).2.1,
      n + 1 = cs ∨ n + 1 ≤ ce := by
  intro n hn
  simp only [printDetailedCellTable] at hn
  by_cases hsh : sh = true
  · rw [if_pos hsh] at hn
    rcases cellLoop_writes_mem data dmi ce sh dmi (sdi + 1) (cs + 1) _ _ _ (by omega)
      (by omega) n hn with h | h
    · left
      have : n = cs - 1 := List.mem_singleton.mp h
      omega
    · exact Or.inr h
  · rw [if_neg hsh] at hn
    rcases cellLoop_writes_mem data dmi ce sh dmi sdi cs _ _ _ (by omega) hcs n hn with h | h
    · simp at h
    · exact Or.inr h

theorem decodeGreenway_writes_mem (now : Nat) (st : DecoderState) (data : Nat → Nat)
    (len : Nat) : ∀ n ∈ (decodeGreenway now st data len).2.1, n < 28 := by
  intro n hn
  simp only [decodeGreenway] at hn
  by_cases h0 : len < 6
  · rw [if_pos h0] at hn; simp at hn
  · rw [if_neg h0] at hn
    by_cases c9 : data 3 = 9 ∧ 9 ≤ len
    · rw [if_pos c9] at hn; simp at hn
    · rw [if_neg c9] at hn
      by_cases cA : data 3 = 10 ∧ 18 ≤ len
      · rw [if_pos cA] at hn; simp at hn
      · rw [if_neg cA] at hn
        by_cases c8 : data 3 = 8 ∧ 9 ≤ len
        · rw [if_pos c8] at hn; simp at hn
        · rw [if_neg c8] at hn
          by_cases c17 : data 3 = 23 ∧ 7 ≤ len
          · rw [if_pos c17] at hn; simp at hn
          · rw [if_neg c17] at hn
            by_cases c25 : data 3 = 37 ∧ 20 ≤ len
            · rw [if_pos c25] at hn
              rcases printDetailedCellTable_writes_mem 17 23 data 5 19 0 false _
                (by omega) n hn with h | h <;> omega
            · rw [if_neg c25] at hn
              by_cases c24 : data 3 = 36 ∧ 20 ≤ len
              · rw [if_pos c24] at hn
                rcases printDetailedCellTable_writes_mem 1 7 data 5 19 0 false _
                  (by omega) n hn with h | h <;> omega
              · rw [if_neg c24] at hn
                by_cases c18 : len = 18
                · rw [if_pos c18] at hn
                  by_cases e25 : st.expect_suite_25 = true
                  · rw [if_pos e25] at hn
                    rcases List.mem_append.mp hn with h | h
                    · rcases printDetailedCellTable_writes_mem 24 24 data 0 18 _ true _
                        (by omega) n h with h2 | h2 <;> omega
                    · rcases printDetailedCellTable_writes_mem 25 28 data 1 9 0 false _
                        (by omega) n h with h2 | h2 <;> omega
                  · rw [if_neg e25] at hn
                    by_cases e24 : st.expect_suite_24 = true
                    · rw [if_pos e24] at hn
                      rcases List.mem_append.mp hn with h | h
                      · rcases printDetailedCellTable_writes_mem 8 8 data 0 18 _ true _
                          (by omega) n h with h2 | h2 <;> omega
                      · rcases printDetailedCellTable_writes_mem 9 16 data 1 17 0 false _
                          (by omega) n h with h2 | h2 <;> omega
                    · rw [if_neg e24] at hn; simp at hn
                · rw [if_neg c18] at hn; simp at hn

/-- C10: over any sequence of received frames whatsoever (any lengths, bytes,
arrival order and decoder state), every store the decode path performs into
the cell-voltage array targets an index in 0..27 (physical cells 1..28). -/
theorem decodeSeq_writes_in_bounds (st : DecoderState)
    (frames : List (Nat × (Nat → Nat) × Nat)) :
    ∀ n ∈ (decodeSeq st frames).2, n < 28 := by
  induction frames generalizing st with
  | nil => intro n hn; simp [decodeSeq] at hn
  | cons f rest ih =>
    intro n hn
    simp only [decodeSeq] at hn
    rcases List.mem_append.mp hn with h | h
    · exact decodeGreenway_writes_mem f.1 st f.2.1 f.2.2 n h
    · exact ih _ n h

/-- Witness for C10: a high-block header frame writes cell index 16, which
the theorem bounds below 28. -/
theorem decodeSeq_writes_in_bounds_witness :
    (16 : Nat) ∈ (decodeSeq initialDecoderState
      [(1, encodeHighHeader (fun _ => 4000), 20)]).2 ∧ (16 : Nat) < 28 := by
  have hm : (16 : Nat) ∈ (decodeSeq initialDecoderState
      [(1, encodeHighHeader (fun _ => 4000), 20)]).2 := by
    simp only [decodeSeq]
    rw [decode_highHeader_eval]
    norm_num
  exact ⟨hm, decodeSeq_writes_in_bounds initialDecoderState
    [(1, encodeHighHeader (fun _ => 4000), 20)] 16 hm⟩

/-- C3 counterexample: the halves stated by the claim are wrong for the code.  The
high-block header/continuation pair (register 0x25) writes only cells 17..28,
never cell 15 (array index 14): injecting 4000 mV (4 V) everywhere and
decoding the synthetic high-block pair from the initial state leaves cell 15
at 0 V — not within 0.001 V of the injected 4 V — and index 14 is absent from
the write footprint of both frames. -/
theorem highBlock_does_not_write_cell15 :
    (decodeGreenway 2 (decodeGreenway 1 initialDecoderState
        (encodeHighHeader (fun _ => 4000)) 20).1
      (encodeHighCont (fun _ => 4000)) 18).1.bms.cellVolts 14 = 0 ∧
    ¬(|(4 : ℚ) - (decodeGreenway 2 (decodeGreenway 1 initialDecoderState
        (encodeHighHeader (fun _ => 4000)) 20).1
      (encodeHighCont (fun _ => 4000)) 18).1.bms.cellVolts 14| ≤ 1 / 1000) ∧
    (14 : Nat) ∉ (decodeGreenway 2 (decodeGreenway 1 initialDecoderState
        (encodeHighHeader (fun _ => 4000)) 20).1
      (encodeHighCont (fun _ => 4000)) 18).2.1 := by
  rw [decode_highHeader_eval]
  rw [decode_highCont_eval _ _ _ rfl (by norm_num [encodeHighCont, lsbOf])
    (by norm_num [encodeHighCont, lsbOf]) (by norm_num [encodeHighCont, lsbOf])
    (by norm_num [encodeHighCont, lsbOf])]
  refine ⟨?_, ?_, by norm_num⟩
  · simp [minMaxScan_cellVolts, initialDecoderState, initialBmsData]
  · simp [minMaxScan_cellVolts, initialDecoderState, initialBmsData]
    norm_num

/-- C3 amended: the two cell super-blocks are 16 and 12 cells, not 14 and 14.
Decoding a synthetic low-block header (tag 0x24) and its continuation writes
exactly cells 1..16 (array indices 0..15: seven header pairs, the carry cell 8
split across the frames, eight continuation pairs), each exactly the injected
millivolt value divided by 1000; the high-block pair (tag 0x25) writes exactly
cells 17..28 (indices 16..27: seven pairs, carry cell 24, four pairs).  The
round-trip additionally requires the continuation frame byte at the tag
offset (the low byte of cell 10, resp. cell 26) to avoid the recognized
register tags 0x09/0x0A/0x08/0x17 — otherwise the decoder consumes the
continuation as a frame of that register instead. -/
theorem cellBlock_roundtrip_16_12 (v : Nat → Nat) (hv : ∀ k, k < 28 → v k < 65536)
    (st st2 : DecoderState) (t1 t2 t3 t4 : Nat)
    (hLow : v 9 % 256 ≠ 9 ∧ v 9 % 256 ≠ 10 ∧ v 9 % 256 ≠ 8 ∧ v 9 % 256 ≠ 23)
    (hHigh : v 25 % 256 ≠ 9 ∧ v 25 % 256 ≠ 10 ∧ v 25 % 256 ≠ 8 ∧ v 25 % 256 ≠ 23) :
    ((decodeGreenway t1 st (encodeLowHeader v) 20).2.1 = [0, 1, 2, 3, 4, 5, 6] ∧
     (decodeGreenway t2 (decodeGreenway t1 st (encodeLowHeader v) 20).1
        (encodeLowCont v) 18).2.1 = [7, 8, 9, 10, 11, 12, 13, 14, 15] ∧
     ∀ k, k < 16 →
       (decodeGreenway t2 (decodeGreenway t1 st (encodeLowHeader v) 20).1
          (encodeLowCont v) 18).1.bms.cellVolts k = (v k : ℚ) / 1000) ∧
    ((decodeGreenway t3 st2 (encodeHighHeader v) 20).2.1 = [16, 17, 18, 19, 20, 21, 22] ∧
     (decodeGreenway t4 (decodeGreenway t3 st2 (encodeHighHeader v) 20).1
        (encodeHighCont v) 18).2.1 = [23, 24, 25, 26, 27] ∧
     ∀ k, 16 ≤ k → k < 28 →
       (decodeGreenway t4 (decodeGreenway t3 st2 (encodeHighHeader v) 20).1
          (encodeHighCont v) 18).1.bms.cellVolts k = (v k : ℚ) / 1000) := by
  have hc3L : encodeLowCont v 3 = v 9 % 256 := by norm_num [encodeLowCont, lsbOf]
  have hc3H : encodeHighCont v 3 = v 25 % 256 := by norm_num [encodeHighCont, lsbOf]
  rw [decode_lowHeader_eval, decode_highHeader_eval]
  rw [decode_lowCont_eval _ _ _ rfl rfl (by rw [hc3L]; exact hLow.1)
    (by rw [hc3L]; exact hLow.2.1) (by rw [hc3L]; exact hLow.2.2.1)
    (by rw [hc3L]; exact hLow.2.2.2)]
  rw [decode_highCont_eval _ _ _ rfl (by rw [hc3H]; exact hHigh.1)
    (by rw [hc3H]; exact hHigh.2.1) (by rw [hc3H]; exact hHigh.2.2.1)
    (by rw [hc3H]; exact hHigh.2.2.2)]
  refine ⟨⟨rfl, rfl, ?_⟩, ⟨rfl, rfl, ?_⟩⟩
  · intro k hk
    interval_cases k <;>
      simp [minMaxScan_cellVolts, lsbOf, msbOf, split_reassemble]
  · intro k hk1 hk2
    interval_cases k <;>
      simp [minMaxScan_cellVolts, lsbOf, msbOf, split_reassemble]

/-- Witness for the amended C3: injecting millivolt values 3000+k reproduces
cell 9 (index 8, low half) as 3.008 V and cell 28 (index 27, high half) as
3.027 V. -/
theorem cellBlock_roundtrip_16_12_witness :
    (decodeGreenway 2 (decodeGreenway 1 initialDecoderState
        (encodeLowHeader (fun k => 3000 + k)) 20).1
      (encodeLowCont (fun k => 3000 + k)) 18).1.bms.cellVolts 8 = 3008 / 1000 ∧
    (decodeGreenway 4 (decodeGreenway 3 initialDecoderState
        (encodeHighHeader (fun k => 3000 + k)) 20).1
      (encodeHighCont (fun k => 3000 + k)) 18).1.bms.cellVolts 27 = 3027 / 1000 := by
  have h := cellBlock_roundtrip_16_12 (fun k => 3000 + k)
    (by intro k hk; show 3000 + k < 65536; omega) initialDecoderState initialDecoderState
    1 2 3 4 (by norm_num) (by norm_num)
  exact ⟨h.1.2.2 8 (by norm_num), h.2.2.2 27 (by norm_num) (by norm_num)⟩
